import Mathlib

/-!
Verification of the incremental-processing planner of the nianalysis
repository against its specification.

The development shallowly embeds the planner code:

* `to_process` embeds `BaseProcessor._to_process`
  (src/arcana/processor/base.py, lines 395-491);
* `connect_to_repository` embeds `BaseProcessor._connect_to_repository`
  (lines 114-300);
* `subject_and_session_iterators` embeds
  `BaseProcessor._subject_and_session_iterators` (lines 302-342);
* `VisitNode.visit_eq` embeds `Visit.__eq__`
  (src/nianalysis/archive/base.py, lines 551-560).

The `Pipeline` class, the cached repository tree and the bound data-item
collections live outside the provided source slice (only their callers are
present), so they are modelled from the specification; each such definition
carries a doc comment starting with `Modelled from the spec:`.

Python exceptions are embedded as the `PyErr` type; functions that mutate the
shared nipype workflow are embedded as explicit state passing over `WFState`,
returning the (possibly partially) mutated state alongside the outcome, which
matches Python semantics where mutations made before a raise persist.
-/

namespace Arcana

/-- Data frequencies of the spec registry: the granularity at which a data
item is produced and stored (spec section 3, code string literals
per_study / per_subject / per_visit / per_session). -/
inductive Freq where
  | per_study
  | per_subject
  | per_visit
  | per_session
deriving DecidableEq, Repr

/-- Python exceptions raised by the embedded planner code.

* `attributeError a` : Python AttributeError on attribute `a`.  Two sites in
  `_to_process` raise it: `self.name` (BaseProcessor defines no `name`
  attribute, line 426) and `sessions.extend` (`sessions` is a `set`, which
  has no `extend` method, line 431).
* `arcanaError m` : ArcanaError (the name-clash error of
  `_connect_to_repository`, lines 124-127).
* `noRunRequired` : ArcanaNoRunRequiredException (line 137).
* `noConverter required available pipeline study` : ArcanaNoConverterError,
  carrying the two formats from the converter resolver plus the pipeline and
  study names appended at lines 213-218.
* `missingData m` : ArcanaMissingDataException (lines 186-189).
* `usageError` : ArcanaUsageError. -/
inductive PyErr where
  | attributeError (attr : String)
  | arcanaError (msg : String)
  | noRunRequired
  | noConverter (required available pipeline study : String)
  | missingData (msg : String)
  | usageError
deriving DecidableEq, Repr

instance {ε α : Type} [DecidableEq ε] [DecidableEq α] : DecidableEq (Except ε α) :=
  fun a b =>
    match a, b with
    | .ok x, .ok y => decidable_of_iff (x = y) (by simp)
    | .error e, .error f => decidable_of_iff (e = f) (by simp)
    | .ok _, .error _ => isFalse (by simp)
    | .error _, .ok _ => isFalse (by simp)

/-- A pipeline input spec: the name of the data item the pipeline consumes
and the format the pipeline requires it in (used at lines 201-231 of
src/arcana/processor/base.py via `input_spec.name` and `input_spec.format`).

Modelled from the spec: the Pipeline class itself is not part of the source
slice; spec section 3 declares a pipeline's inputs as a list of DataSpecs
with a name and a required representation/format. -/
structure InputSpec where
  name : String
  format : String
deriving DecidableEq, Repr

/-- A pipeline output spec: the name of the produced data item and the
internal format the pipeline produces it in (used at lines 256-289 via
`output_spec.name` and `output_spec.format`).

Modelled from the spec: spec section 3, as for `InputSpec`. -/
structure OutputSpec where
  name : String
  format : String
deriving DecidableEq, Repr

/-- Modelled from the spec: the Pipeline class (arcana/study/pipeline.py) is
not part of the source slice.  Spec section 3: a pipeline is
`{name, inputs, outputs, prerequisites}`; `wired` records whether all of its
ports are connected, the structural precondition checked by
`pipeline.assert_connected()` at line 131.  Two pipelines compare equal when
all declared structure coincides ("two pipelines with the same name that
differ in structure is a configuration error"). -/
inductive Pipeline where
  | mk (name : String) (wired : Bool) (inputs : List InputSpec)
       (outputs : List OutputSpec) (prerequisites : List Pipeline)
deriving Repr

mutual

/-- Structural (decidable) equality on pipelines, embedding the Python
equality test `prev_connected == pipeline` of line 121. -/
def Pipeline.decEq : (p q : Pipeline) → Decidable (p = q)
  | .mk n w i o ps, .mk n' w' i' o' ps' =>
    haveI : Decidable (ps = ps') := Pipeline.decEqList ps ps'
    decidable_of_iff (n = n' ∧ w = w' ∧ i = i' ∧ o = o' ∧ ps = ps')
      (Iff.symm (iff_of_eq (Pipeline.mk.injEq n w i o ps n' w' i' o' ps')))

/-- Decidable equality on lists of pipelines. -/
def Pipeline.decEqList : (ps qs : List Pipeline) → Decidable (ps = qs)
  | [], [] => isTrue rfl
  | [], _ :: _ => isFalse (by simp)
  | _ :: _, [] => isFalse (by simp)
  | p :: ps, q :: qs =>
    haveI : Decidable (p = q) := Pipeline.decEq p q
    haveI : Decidable (ps = qs) := Pipeline.decEqList ps qs
    decidable_of_iff (p = q ∧ ps = qs)
      (Iff.symm (iff_of_eq (List.cons.injEq p ps q qs)))

end

instance : DecidableEq Pipeline := Pipeline.decEq

/-- The name of a pipeline. -/
def Pipeline.name : Pipeline → String
  | .mk n _ _ _ _ => n

/-- Whether all ports of the pipeline are connected
(`pipeline.assert_connected()` succeeds). -/
def Pipeline.wired : Pipeline → Bool
  | .mk _ w _ _ _ => w

/-- The declared inputs of a pipeline. -/
def Pipeline.inputs : Pipeline → List InputSpec
  | .mk _ _ i _ _ => i

/-- The declared outputs of a pipeline. -/
def Pipeline.outputs : Pipeline → List OutputSpec
  | .mk _ _ _ o _ => o

/-- The prerequisite pipelines of a pipeline. -/
def Pipeline.prerequisites : Pipeline → List Pipeline
  | .mk _ _ _ _ p => p

/-- Modelled from the spec: the cached repository tree returned by
`self.study.tree` (the Tree/Project snapshot class with the accessors
`incomplete_subjects`, `sessions`, `subject(id).sessions`,
`visit(id).sessions` and `session(subject_id, visit_id)` used by
`_to_process` is not part of the source slice).  Spec section 3: the tree
holds subjects, visits and the sessions (subject, visit) present in the
store.  A session is identified by its (subject_id, visit_id) pair. -/
structure Tree where
  subjectIds : List String
  visitIds : List String
  sessions : List (String × String)
deriving DecidableEq, Repr

/-- Modelled from the spec: `tree.incomplete_subjects`, spec section 4.1
step 1 and the error message at lines 421-428: the subjects "that are
missing one or more visits" of the tree. -/
def Tree.incompleteSubjects (t : Tree) : List String :=
  t.subjectIds.filter (fun s => t.visitIds.any (fun v => !((s, v) ∈ t.sessions)))

/-- The sessions of one subject of the tree
(`tree.subject(subject_id).sessions`, used at line 465). -/
def Tree.subjectSessions (t : Tree) (subjectId : String) : List (String × String) :=
  t.sessions.filter (fun ss => ss.1 = subjectId)

/-- The sessions of one visit of the tree
(`tree.visit(visit_id).sessions`, used at line 478). -/
def Tree.visitSessions (t : Tree) (visitId : String) : List (String × String) :=
  t.sessions.filter (fun ss => ss.2 = visitId)

/-- Modelled from the spec: the bound study, i.e. the pieces of
`self.study` that `_connect_to_repository` and `_to_process` consult.  The
Study subclass machinery, the bound spec collections and the format registry
are not part of the source slice; per spec sections 3 and 4.4 the study maps
each data-item name to its declared frequency, its bound collection of items
with an `exists` flag per tree node of that frequency, the stored format of
the bound item, and a converter registry keyed by
(required_format, available_format).

* `freq n` : declared frequency of spec `n` (`self.study.spec(n).frequency`);
* `studyExists n` : whether the single per-study item of `n` exists;
* `subjectExists n s` : whether the per-subject item of `n` for subject `s`
  exists;
* `visitExists n v` : likewise per visit;
* `sessionExists n ss` : likewise per session;
* `isField n` : whether the bound item of `n` is a field rather than a
  fileset (`isinstance(input, BaseFileset)` at line 204);
* `isSpec n` : whether the bound item of `n` is a spec rather than an input
  binding (`output.is_spec` at line 260);
* `boundFormat n` : the format the bound item of `n` is stored in
  (`input.format` at line 205, `output.format` at line 263);
* `unbound n` : whether `n` is an acquired item with no input binding and no
  default, in which case `self.study.source` raises
  ArcanaMissingDataException (arcana/study/base.py lines 610-614);
* `converters` : the registered converters as
  (required_format, available_format) pairs. -/
structure StudyModel where
  name : String
  freq : String → Freq
  studyExists : String → Bool
  subjectExists : String → String → Bool
  visitExists : String → String → Bool
  sessionExists : String → String × String → Bool
  isField : String → Bool
  isSpec : String → Bool
  boundFormat : String → String
  unbound : String → Bool
  converters : List (String × String)

/-- Modelled from the spec: the converter resolver of spec section 4.4
(`required_format.converter_from(available_format)`; the format class is
not part of the source slice).  Looks up a registered converter keyed by
(required_format, available_format); `none` corresponds to
ArcanaNoConverterError identifying the two formats. -/
def StudyModel.converterFrom (study : StudyModel)
    (required available : String) : Option (String × String) :=
  study.converters.find? (fun c => c.1 = required ∧ c.2 = available)

/-- Whether an id passes an optional id filter: a `none` filter passes
everything (the `subject_ids is None or item.subject_id in subject_ids`
tests of `_to_process`). -/
def passes : Option (Finset String) → String → Bool
  | none, _ => true
  | some f, x => x ∈ f

/-- The loop over `pipeline.outputs` of `_to_process`
(src/arcana/processor/base.py lines 432-491), accumulating the set
`sessions`.  Branches follow `items.frequency`:

* per_study (lines 434-452): the filter warnings are logging only; if the
  single study-level item does not exist the function returns
  `list(tree.sessions)` at once, discarding the accumulator;
* per_subject (lines 453-465): for every item that does not exist and whose
  subject passes the subject filter, add all sessions of that subject;
* per_visit (lines 466-478): symmetric, keyed on visit;
* per_session (lines 479-487): for every item that does not exist and whose
  subject and visit pass both filters, add that session.

The per_subject / per_visit / per_session collections hold one item per
subject / visit / session of the tree. -/
def toProcessLoop (study : StudyModel) (tree : Tree)
    (subjectIds visitIds : Option (Finset String)) :
    List OutputSpec → Finset (String × String) →
    Except PyErr (Finset (String × String))
  | [], acc => .ok acc
  | o :: rest, acc =>
    match study.freq o.name with
    | .per_study =>
      if !(study.studyExists o.name) then
        .ok tree.sessions.toFinset
      else
        toProcessLoop study tree subjectIds visitIds rest acc
    | .per_subject =>
      let added := tree.subjectIds.filter
        (fun s => !(study.subjectExists o.name s) && passes subjectIds s)
      toProcessLoop study tree subjectIds visitIds rest
        (acc ∪ (added.flatMap tree.subjectSessions).toFinset)
    | .per_visit =>
      let added := tree.visitIds.filter
        (fun v => !(study.visitExists o.name v) && passes visitIds v)
      toProcessLoop study tree subjectIds visitIds rest
        (acc ∪ (added.flatMap tree.visitSessions).toFinset)
    | .per_session =>
      let added := tree.sessions.filter
        (fun ss => !(study.sessionExists o.name ss) &&
          passes subjectIds ss.1 && passes visitIds ss.2)
      toProcessLoop study tree subjectIds visitIds rest (acc ∪ added.toFinset)

/-- Embeds `BaseProcessor._to_process` (src/arcana/processor/base.py lines
395-491).  Control flow of the source:

1. `non_per_session` outputs are collected; if any exist while the tree has
   incomplete subjects, the code attempts to raise ArcanaUsageError, but the
   first format argument of the message is `self.name` and BaseProcessor has
   no `name` attribute, so evaluating the arguments raises AttributeError
   (line 426) before the ArcanaUsageError can be constructed;
2. `sessions = set()`; if `reprocess` is set the code calls
   `sessions.extend(tree.sessions)` (line 431) — a Python `set` has no
   `extend` method (that is a `list` method), so this raises AttributeError;
3. otherwise the loop over outputs (`toProcessLoop`) accumulates and the
   accumulated set is returned. -/
def to_process (study : StudyModel) (tree : Tree) (pipeline : Pipeline)
    (subjectIds visitIds : Option (Finset String)) (reprocess : Bool) :
    Except PyErr (Finset (String × String)) :=
  let nonPerSession :=
    pipeline.outputs.filter (fun o => !(study.freq o.name = .per_session))
  if !nonPerSession.isEmpty && !tree.incompleteSubjects.isEmpty then
    .error (.attributeError "name")
  else if reprocess then
    .error (.attributeError "extend")
  else
    toProcessLoop study tree subjectIds visitIds pipeline.outputs ∅

/-! Concrete instances used by witnesses and counterexamples. -/

/-- A concrete study whose specs are all per_session; the item `A_out`
already exists for subject subj1, visit visit2 only. -/
def study2x2 : StudyModel where
  name := "study"
  freq := fun _ => .per_session
  studyExists := fun _ => false
  subjectExists := fun _ _ => false
  visitExists := fun _ _ => false
  sessionExists := fun _ ss => decide (ss = ("subj1", "visit2"))
  isField := fun _ => false
  isSpec := fun _ => true
  boundFormat := fun _ => "nifti"
  unbound := fun _ => false
  converters := []

/-- A complete 2-subject by 2-visit tree. -/
def tree2x2 : Tree where
  subjectIds := ["subj1", "subj2"]
  visitIds := ["visit1", "visit2"]
  sessions := [("subj1", "visit1"), ("subj1", "visit2"),
               ("subj2", "visit1"), ("subj2", "visit2")]

/-- A fully wired pipeline A with one declared output and no inputs or
prerequisites. -/
def pipeA : Pipeline := .mk "A" true [] [⟨"A_out", "nifti"⟩] []

/-! Properties of `to_process`. -/

/-- Helper: the output loop of `_to_process` on a list of purely per_session
outputs adds exactly the sessions missing at least one output item and
passing both filters. -/
theorem toProcessLoop_per_session (study : StudyModel) (tree : Tree)
    (sids vids : Option (Finset String)) (outs : List OutputSpec)
    (acc : Finset (String × String))
    (hall : ∀ o ∈ outs, study.freq o.name = .per_session) :
    toProcessLoop study tree sids vids outs acc =
      .ok (acc ∪ tree.sessions.toFinset.filter (fun ss =>
        outs.any (fun o => !(study.sessionExists o.name ss)) &&
        passes sids ss.1 && passes vids ss.2)) := by
  induction outs generalizing acc with
  | nil =>
    simp [toProcessLoop]
  | cons o rest ih =>
    have ho : study.freq o.name = .per_session := hall o (by simp)
    simp only [toProcessLoop, ho]
    rw [ih _ (fun o' ho' => hall o' (List.mem_cons_of_mem _ ho'))]
    refine congrArg Except.ok ?_
    ext ss
    simp only [Finset.mem_union, Finset.mem_filter, List.mem_toFinset,
      List.mem_filter, List.any_cons, Bool.and_eq_true, Bool.or_eq_true]
    tauto

/-- C1: for a pipeline all of whose declared outputs are per_session,
`_to_process` (with reprocess left False) returns exactly the set of
sessions of the tree for which at least one declared output item does not
exist and whose subject id and visit id pass the respective filters (a None
filter passes everything), the union over all outputs. -/
theorem to_process_per_session_missing (study : StudyModel) (tree : Tree)
    (p : Pipeline) (sids vids : Option (Finset String))
    (hall : ∀ o ∈ p.outputs, study.freq o.name = .per_session) :
    to_process study tree p sids vids false =
      .ok (tree.sessions.toFinset.filter (fun ss =>
        p.outputs.any (fun o => !(study.sessionExists o.name ss)) &&
        passes sids ss.1 && passes vids ss.2)) := by
  have hnps : p.outputs.filter (fun o => !(study.freq o.name = .per_session)) = [] := by
    rw [List.filter_eq_nil_iff]
    intro o ho
    simp [hall o ho]
  rw [to_process]
  simp only [hnps, List.isEmpty_nil, Bool.not_true, Bool.false_and,
    Bool.false_eq_true, if_false, Bool.not_eq_true]
  rw [toProcessLoop_per_session study tree sids vids p.outputs ∅ hall]
  rw [Finset.empty_union]

/-- Witness for C1: in the complete 2-subject by 2-visit tree where exactly
the session (subj1, visit2) already has pipeline A's only (per_session)
output, `_to_process` returns exactly the other 3 sessions. -/
theorem to_process_per_session_missing_witness :
    (∀ o ∈ pipeA.outputs, study2x2.freq o.name = .per_session) ∧
    to_process study2x2 tree2x2 pipeA none none false =
      .ok {("subj1", "visit1"), ("subj2", "visit1"), ("subj2", "visit2")} := by
  refine ⟨by decide, ?_⟩
  rw [to_process_per_session_missing study2x2 tree2x2 pipeA none none (by decide)]
  decide

/-- C3 (code divergence): calling `_to_process` with reprocess=True never
returns a session set: `sessions` is a Python `set` and `set` has no
`extend` method, so `sessions.extend(tree.sessions)` (line 431) raises
AttributeError; when the pipeline also has non-per_session outputs over an
incomplete tree the earlier AttributeError on `self.name` fires instead.
Either way the result is an AttributeError, never a list of sessions. -/
theorem to_process_reprocess_attribute_error (study : StudyModel)
    (tree : Tree) (p : Pipeline) (sids vids : Option (Finset String)) :
    ∃ a, to_process study tree p sids vids true = .error (.attributeError a) := by
  rw [to_process]
  by_cases h : (!(p.outputs.filter
      (fun o => !(study.freq o.name = .per_session))).isEmpty &&
      !tree.incompleteSubjects.isEmpty) = true
  · exact ⟨"name", by simp [h]⟩
  · exact ⟨"extend", by simp [h]⟩

/-- C7 (code divergence): when a pipeline has a non-per_session output and
the tree has incomplete subjects, `_to_process` raises AttributeError, not
the intended ArcanaUsageError: the first argument of the error-message
format call is `self.name` and BaseProcessor defines no `name` attribute,
so the arguments of `.format` raise before ArcanaUsageError is built. -/
theorem to_process_irregular_scope_attribute_error (study : StudyModel)
    (tree : Tree) (p : Pipeline) (sids vids : Option (Finset String))
    (hnps : ∃ o ∈ p.outputs, study.freq o.name ≠ .per_session)
    (hinc : tree.incompleteSubjects ≠ []) :
    to_process study tree p sids vids false = .error (.attributeError "name") := by
  obtain ⟨o, ho, hne⟩ := hnps
  have h1 : (p.outputs.filter
      (fun o => !(study.freq o.name = .per_session))).isEmpty = false := by
    rcases h : (p.outputs.filter
        (fun o => !(study.freq o.name = .per_session))) with _ | ⟨a, l⟩
    · rw [List.filter_eq_nil_iff] at h
      exact absurd (by simpa using h o ho) hne
    · rw [h]
      rfl
  have h2 : tree.incompleteSubjects.isEmpty = false := by
    rcases h : tree.incompleteSubjects with _ | ⟨a, l⟩
    · exact absurd h hinc
    · rfl
  rw [to_process]
  simp [h1, h2]

/-- A study with one per_subject output `B_out` that exists nowhere. -/
def studySubj : StudyModel :=
  { study2x2 with freq := fun _ => .per_subject }

/-- An irregular tree: subj2 is missing visit2. -/
def treeIrregular : Tree where
  subjectIds := ["subj1", "subj2"]
  visitIds := ["visit1", "visit2"]
  sessions := [("subj1", "visit1"), ("subj1", "visit2"), ("subj2", "visit1")]

/-- A fully wired pipeline B with one declared output. -/
def pipeB : Pipeline := .mk "B" true [] [⟨"B_out", "nifti"⟩] []

/-- Witness for C7: at the concrete irregular tree with a per_subject
output, `_to_process` evaluates to the AttributeError on `self.name`. -/
theorem to_process_irregular_scope_attribute_error_witness :
    (∃ o ∈ pipeB.outputs, studySubj.freq o.name ≠ Freq.per_session) ∧
    treeIrregular.incompleteSubjects ≠ [] ∧
    to_process studySubj treeIrregular pipeB none none false =
      .error (.attributeError "name") := by
  refine ⟨⟨⟨"B_out", "nifti"⟩, by decide, by decide⟩, by decide, ?_⟩
  exact to_process_irregular_scope_attribute_error studySubj treeIrregular
    pipeB none none ⟨⟨"B_out", "nifti"⟩, by decide, by decide⟩ (by decide)

/-- Helper: once some per_study output item is missing, the output loop of
`_to_process` returns every session of the tree whatever has been
accumulated so far. -/
theorem toProcessLoop_per_study_missing (study : StudyModel) (tree : Tree)
    (sids vids : Option (Finset String)) (outs : List OutputSpec)
    (acc : Finset (String × String))
    (ho : ∃ o ∈ outs, study.freq o.name = .per_study ∧
      study.studyExists o.name = false) :
    toProcessLoop study tree sids vids outs acc = .ok tree.sessions.toFinset := by
  induction outs generalizing acc with
  | nil => simp at ho
  | cons o rest ih =>
    obtain ⟨w, hw, hfreq, hex⟩ := ho
    rcases List.mem_cons.mp hw with h | h
    · subst h
      rw [toProcessLoop, hfreq, hex]
      simp
    · rw [toProcessLoop]
      rcases hfo : study.freq o.name with _ | _ | _ | _
      · rcases hx : study.studyExists o.name with _ | _
        · simp [hx]
        · simp only [hx, Bool.not_true, Bool.false_eq_true, if_false]
          exact ih _ ⟨w, h, hfreq, hex⟩
      · exact ih _ ⟨w, h, hfreq, hex⟩
      · exact ih _ ⟨w, h, hfreq, hex⟩
      · exact ih _ ⟨w, h, hfreq, hex⟩

/-- C5: for a pipeline with a per_study output whose single study-level item
does not exist (over a tree with no incomplete subjects, so that the
irregular-scope check of line 418 does not fire), `_to_process` returns
every session of the tree, whatever subject or visit filters are supplied;
the filter warnings of lines 435-448 are logging only. -/
theorem to_process_per_study_all_sessions (study : StudyModel) (tree : Tree)
    (p : Pipeline) (sids vids : Option (Finset String))
    (hcomplete : tree.incompleteSubjects = [])
    (ho : ∃ o ∈ p.outputs, study.freq o.name = .per_study ∧
      study.studyExists o.name = false) :
    to_process study tree p sids vids false = .ok tree.sessions.toFinset := by
  rw [to_process]
  simp only [hcomplete, List.isEmpty_nil, Bool.not_true, Bool.and_false,
    Bool.false_eq_true, if_false]
  exact toProcessLoop_per_study_missing study tree sids vids p.outputs ∅ ho

/-- A study with one per_study output `C_out` that does not exist. -/
def studyProj : StudyModel :=
  { study2x2 with freq := fun _ => .per_study }

/-- A fully wired pipeline C with one declared per_study output. -/
def pipeC : Pipeline := .mk "C" true [] [⟨"C_out", "mif"⟩] []

/-- Witness for C5: with restrictive subject and visit filters supplied, the
result is still every one of the four sessions of the complete 2x2 tree. -/
theorem to_process_per_study_all_sessions_witness :
    tree2x2.incompleteSubjects = [] ∧
    (∃ o ∈ pipeC.outputs, studyProj.freq o.name = Freq.per_study ∧
      studyProj.studyExists o.name = false) ∧
    to_process studyProj tree2x2 pipeC (some {"subj1"}) (some {"visit9"}) false =
      .ok {("subj1", "visit1"), ("subj1", "visit2"),
           ("subj2", "visit1"), ("subj2", "visit2")} := by
  refine ⟨by decide, ⟨⟨"C_out", "mif"⟩, by decide, by decide⟩, ?_⟩
  rw [to_process_per_study_all_sessions studyProj tree2x2 pipeC
    (some {"subj1"}) (some {"visit9"}) (by decide)
    ⟨⟨"C_out", "mif"⟩, by decide, by decide⟩]
  decide

/-! Tree snapshot node equality (src/nianalysis/archive/base.py). -/

/-- Tree snapshot Subject node (src/nianalysis/archive/base.py lines
445-503): an id plus lists of sessions, datasets and fields.  Session
objects define no equality of their own, so comparing session lists falls
back to object identity; sessions, datasets and fields are therefore
modelled by identity tokens. -/
structure SubjectNode where
  id : String
  sessions : List Nat
  datasets : List String
  fields : List String
deriving DecidableEq, Repr

/-- Tree snapshot Visit node (src/nianalysis/archive/base.py lines 506-564):
same attribute layout as `SubjectNode`. -/
structure VisitNode where
  id : String
  sessions : List Nat
  datasets : List String
  fields : List String
deriving DecidableEq, Repr

/-- A Python value passed to `Visit.__eq__`: either a Subject node or a
Visit node.  (Any value that is not a Subject takes the same code path as a
Visit: the isinstance guard fails.) -/
inductive TreeNodeVal where
  | subj (s : SubjectNode)
  | vis (v : VisitNode)
deriving DecidableEq, Repr

/-- Embeds `Visit.__eq__` (src/nianalysis/archive/base.py lines 551-557).
The guard is `isinstance(other, Subject)` — testing for Subject, not Visit —
so a Visit argument fails the guard and the method returns False; only a
Subject argument reaches the attribute-by-attribute comparison. -/
def VisitNode.visit_eq (v : VisitNode) : TreeNodeVal → Bool
  | .subj s =>
    v.id == s.id && v.sessions == s.sessions &&
    v.datasets == s.datasets && v.fields == s.fields
  | .vis _ => false

/-- Embeds `Visit.__ne__` (lines 559-560): `not (self == other)`. -/
def VisitNode.visit_ne (v : VisitNode) (other : TreeNodeVal) : Bool :=
  !(v.visit_eq other)

/-- C10: equality on Visit nodes never holds: for every Visit `v` and every
Visit `x` (including `x = v`), `v == x` evaluates to False because the
isinstance guard of `Visit.__eq__` tests for Subject, which a Visit never
is; consequently `v != v` evaluates to True, so Visit equality is not
reflexive. -/
theorem visit_eq_never_holds_between_visits (v x : VisitNode) :
    v.visit_eq (.vis x) = false ∧ v.visit_ne (.vis v) = true :=
  ⟨rfl, rfl⟩

/-! The iteration strategy builder. -/

/-- The visit-iteration strategy emitted by
`_subject_and_session_iterators`: either an independent iterable axis of
visit ids (`sessions.iterables = ('visit_id', list(session_subjects.keys()))`,
line 330) crossed with the subject axis, or an itersource keyed per subject
(`sessions.itersource` plus a per-subject dictionary of visit ids,
lines 334-339). -/
inductive VisitIter where
  | independent (visits : Finset String)
  | keyed (bySubject : String → Finset String)

/-- Rectangular coverage: for every visit id occurring in the session set,
the set of subject ids having a session with that visit equals the full set
of subject ids to process (the `all(ss == subject_ids_to_process ...)` test
of lines 325-326). -/
def rectangular (sess : Finset (String × String)) : Prop :=
  ∀ v ∈ sess.image Prod.snd,
    (sess.filter (fun ss => ss.2 = v)).image Prod.fst = sess.image Prod.fst

instance (sess : Finset (String × String)) : Decidable (rectangular sess) := by
  unfold rectangular
  infer_instance

/-- Embeds `BaseProcessor._subject_and_session_iterators`
(src/arcana/processor/base.py lines 302-342).  The subject axis iterates
over the subject ids occurring in `sessions_to_process` (lines 315-318);
`session_subjects` maps each visit id to the subject ids having a session
with that visit (lines 322-324); if that set equals the full subject set
for every visit, the visit axis is an independent iterable over the visit
ids, otherwise it is keyed per subject, each subject id mapping to its own
visit ids (lines 334-339). -/
def subject_and_session_iterators (sess : Finset (String × String)) :
    Finset String × VisitIter :=
  let subjectIdsToProcess := sess.image Prod.fst
  if rectangular sess then
    (subjectIdsToProcess, .independent (sess.image Prod.snd))
  else
    (subjectIdsToProcess,
      .keyed (fun s => (sess.filter (fun ss => ss.1 = s)).image Prod.snd))

/-- The (subject, visit) pairs enumerated by a pair of iteration axes: an
independent visit axis is crossed with the subject axis; a keyed axis pairs
each subject with its own visit ids. -/
def iterPairs : Finset String × VisitIter → Finset (String × String)
  | (subs, .independent vs) => subs ×ˢ vs
  | (subs, .keyed f) => subs.biUnion (fun s => (f s).image (fun v => (s, v)))

/-- C6: the subject axis iterates exactly the subject ids occurring in the
session set; under rectangular coverage the visit axis is the independent
iterable of occurring visit ids, otherwise it is keyed per subject with
each subject's own visit ids; in both cases the (subject, visit) pairs
enumerated are exactly the session set. -/
theorem iterators_enumerate_exactly_sessions (sess : Finset (String × String))
    (hne : sess.Nonempty) :
    (subject_and_session_iterators sess).1 = sess.image Prod.fst ∧
    (rectangular sess →
      (subject_and_session_iterators sess).2 =
        .independent (sess.image Prod.snd)) ∧
    (¬ rectangular sess →
      (subject_and_session_iterators sess).2 =
        .keyed (fun s => (sess.filter (fun ss => ss.1 = s)).image Prod.snd)) ∧
    iterPairs (subject_and_session_iterators sess) = sess := by
  clear hne
  by_cases hrect : rectangular sess
  · have hEq : subject_and_session_iterators sess =
        (sess.image Prod.fst, .independent (sess.image Prod.snd)) := by
      unfold subject_and_session_iterators
      rw [if_pos hrect]
    rw [hEq]
    refine ⟨rfl, fun _ => rfl, fun h => absurd hrect h, ?_⟩
    rw [iterPairs]
    ext ⟨s, v⟩
    simp only [Finset.mem_product, Finset.mem_image]
    constructor
    · rintro ⟨⟨ss, hss, hs⟩, ⟨tt, htt, ht⟩⟩
      have hv : v ∈ sess.image Prod.snd :=
        Finset.mem_image.mpr ⟨tt, htt, ht⟩
      have := hrect v hv
      have hs' : s ∈ (sess.filter (fun ss => ss.2 = v)).image Prod.fst := by
        rw [this]
        exact Finset.mem_image.mpr ⟨ss, hss, hs⟩
      obtain ⟨uu, huu, hu⟩ := Finset.mem_image.mp hs'
      obtain ⟨huu1, huu2⟩ := Finset.mem_filter.mp huu
      have : uu = (s, v) := by
        obtain ⟨a, b⟩ := uu
        simp only at hu huu2
        rw [hu, huu2]
      rwa [this] at huu1
    · rintro h
      exact ⟨⟨(s, v), h, rfl⟩, ⟨(s, v), h, rfl⟩⟩
  · have hEq : subject_and_session_iterators sess =
        (sess.image Prod.fst,
          .keyed (fun s => (sess.filter (fun ss => ss.1 = s)).image Prod.snd)) := by
      unfold subject_and_session_iterators
      rw [if_neg hrect]
    rw [hEq]
    refine ⟨rfl, fun h => absurd h hrect, fun _ => rfl, ?_⟩
    rw [iterPairs]
    ext ⟨s, v⟩
    simp only [Finset.mem_biUnion, Finset.mem_image, Finset.mem_filter]
    constructor
    · rintro ⟨a, ⟨ss, hss, ha⟩, w, ⟨tt, ⟨htt, htt1⟩, ht⟩, hw⟩
      obtain ⟨h1, h2⟩ := Prod.mk.injEq a w s v ▸ hw
      subst h1
      subst h2
      obtain ⟨ta, tb⟩ := tt
      simp only at htt1 ht
      subst htt1
      subst ht
      exact htt
    · intro h
      exact ⟨s, ⟨(s, v), h, rfl⟩, v, ⟨(s, v), ⟨h, rfl⟩, rfl⟩, rfl⟩

/-- A deliberately irregular session set: subjects sA and sB both have
visit w1 but only sA has visit w2. -/
def irregularSessions : Finset (String × String) :=
  {("sA", "w1"), ("sB", "w1"), ("sA", "w2")}

/-- Witness for C6 at the irregular session set (coverage not rectangular,
so the keyed strategy is chosen and still enumerates exactly the set). -/
theorem iterators_enumerate_exactly_sessions_witness :
    irregularSessions.Nonempty ∧ ¬ rectangular irregularSessions ∧
    ((subject_and_session_iterators irregularSessions).1 =
        irregularSessions.image Prod.fst ∧
      (rectangular irregularSessions →
        (subject_and_session_iterators irregularSessions).2 =
          .independent (irregularSessions.image Prod.snd)) ∧
      (¬ rectangular irregularSessions →
        (subject_and_session_iterators irregularSessions).2 =
          .keyed (fun s => (irregularSessions.filter
            (fun ss => ss.1 = s)).image Prod.snd)) ∧
      iterPairs (subject_and_session_iterators irregularSessions) =
        irregularSessions) :=
  ⟨by decide, by decide,
    iterators_enumerate_exactly_sessions irregularSessions (by decide)⟩

/-! The dependency connector. -/

/-- Modelled from the spec: the `PATH_SUFFIX` port-name suffix of
arcana.utils (not part of the source slice), appended to fileset port
names. -/
def pathSuffix : String := "_path"

/-- Modelled from the spec: the `FIELD_SUFFIX` port-name suffix of
arcana.utils (not part of the source slice), appended to field port
names. -/
def fieldSuffix : String := "_field"

/-- The state mutated by `_connect_to_repository`: the nipype workflow
(nodes added via `add_nodes` / `create_node` and port-to-port connections
added via `workflow.connect`) together with the `already_connected` table
mapping a pipeline name to the connected pipeline and its report node.
Nodes are identified by their nipype names; an edge is
(source node, source port, destination node, destination port). -/
structure WFState where
  nodes : List String
  edges : List (String × String × String × String)
  connected : List (String × Pipeline × String)
deriving DecidableEq, Repr

/-- Add a node to the workflow. -/
def WFState.addNode (st : WFState) (n : String) : WFState :=
  { st with nodes := st.nodes ++ [n] }

/-- Add a port-to-port connection to the workflow. -/
def WFState.addEdge (st : WFState) (e : String × String × String × String) :
    WFState :=
  { st with edges := st.edges ++ [e] }

/-- Lookup of `already_connected[pipeline.name]` (the Python dict access of
line 120; `none` models the KeyError branch). -/
def lookupConnected : List (String × Pipeline × String) → String →
    Option (Pipeline × String)
  | [], _ => none
  | (n, pr) :: rest, m => if n = m then some pr else lookupConnected rest m

/-- Embeds the body of the input-wiring loop of `_connect_to_repository`
(src/arcana/processor/base.py lines 201-236) for one pipeline input:

* a fileset whose bound format differs from the spec format resolves a
  converter from the stored format to the required format; its absence
  raises ArcanaNoConverterError carrying the two formats, the pipeline and
  the study (lines 209-218), and otherwise exactly one conversion node is
  inserted between the repository source and the pipeline input
  (lines 219-231);
* a fileset in the required format is wired straight from the source
  (lines 226-231);
* a field is wired straight from the source (lines 232-236). -/
def wireOneInput (study : StudyModel) (p : Pipeline) (i : InputSpec)
    (st : WFState) : Except PyErr Unit × WFState :=
  let source := p.name ++ "_source"
  let inputnode := p.name ++ "_inputnode"
  if !(study.isField i.name) then
    if !(study.boundFormat i.name = i.format) then
      match study.converterFrom i.format (study.boundFormat i.name) with
      | none =>
        (.error (.noConverter i.format (study.boundFormat i.name)
          p.name study.name), st)
      | some _ =>
        let conv := p.name ++ "_" ++ i.name ++ "_input_conversion"
        let st := st.addNode conv
        let st := st.addEdge (source, i.name ++ pathSuffix, conv, "conv_in")
        (.ok (), st.addEdge (conv, "conv_out", inputnode, i.name))
    else
      (.ok (), st.addEdge (source, i.name ++ pathSuffix, inputnode, i.name))
  else
    (.ok (), st.addEdge (source, i.name ++ fieldSuffix, inputnode, i.name))

/-- The input-wiring loop of `_connect_to_repository` (lines 201-236) over
all pipeline inputs; an ArcanaNoConverterError propagates at once, keeping
the mutations already made. -/
def wireInputs (study : StudyModel) (p : Pipeline) :
    List InputSpec → WFState → Except PyErr Unit × WFState
  | [], st => (.ok (), st)
  | i :: rest, st =>
    match wireOneInput study p i st with
    | (.ok _, st') => wireInputs study p rest st'
    | (.error e, st') => (.error e, st')

/-- The nipype name of a frequency (the dict keys of `pipeline._outputs`). -/
def freqName : Freq → String
  | .per_study => "per_study"
  | .per_subject => "per_subject"
  | .per_visit => "per_visit"
  | .per_session => "per_session"

/-- Embeds the body of the output-wiring loop of `_connect_to_repository`
(lines 256-294) for one declared output: outputs that are not specs are
skipped (line 260); filesets whose bound format differs from the pipeline's
output format resolve a converter (absence raises ArcanaNoConverterError,
lines 264-274) and insert one conversion node before the sink
(lines 275-289); matching filesets and fields are wired straight from the
frequency's output node to the sink. -/
def wireOneOutput (study : StudyModel) (p : Pipeline) (freq : Freq)
    (o : OutputSpec) (st : WFState) : Except PyErr Unit × WFState :=
  let sink := p.name ++ "_" ++ freqName freq ++ "_sink"
  let outputnode := p.name ++ "_" ++ freqName freq ++ "_outputnode"
  if study.isSpec o.name then
    if !(study.isField o.name) then
      if !(study.boundFormat o.name = o.format) then
        match study.converterFrom (study.boundFormat o.name) o.format with
        | none =>
          (.error (.noConverter (study.boundFormat o.name) o.format
            p.name study.name), st)
        | some _ =>
          let conv := o.name ++ "_output_conversion"
          let st := st.addNode conv
          let st := st.addEdge (outputnode, o.name, conv, "conv_in")
          (.ok (), st.addEdge (conv, "conv_out", sink, o.name ++ pathSuffix))
      else
        (.ok (), st.addEdge (outputnode, o.name, sink, o.name ++ pathSuffix))
    else
      (.ok (), st.addEdge (outputnode, o.name, sink, o.name ++ fieldSuffix))
  else
    (.ok (), st)

/-- The per-output part of the output-wiring loop over one frequency's
outputs (lines 256-294). -/
def wireOutputList (study : StudyModel) (p : Pipeline) (freq : Freq) :
    List OutputSpec → WFState → Except PyErr Unit × WFState
  | [], st => (.ok (), st)
  | o :: rest, st =>
    match wireOneOutput study p freq o st with
    | (.ok _, st') => wireOutputList study p freq rest st'
    | (.error e, st') => (.error e, st')

/-- Embeds `BaseProcessor._connect_to_reports` (lines 344-393): per
frequency, join nodes collecting the processed subject/session ids are
added and wired from the frequency's sink into the pipeline's single report
node. -/
def connectToReports (p : Pipeline) (freq : Freq) (st : WFState) : WFState :=
  let sink := p.name ++ "_" ++ freqName freq ++ "_sink"
  let report := p.name ++ "_report"
  match freq with
  | .per_session =>
    let sessOut := p.name ++ "_session_outputs"
    let subjSessOut := p.name ++ "_subject_session_outputs"
    let st := st.addNode sessOut
    let st := st.addNode subjSessOut
    let st := st.addEdge (sink, "subject_id", sessOut, "subjects")
    let st := st.addEdge (sink, "visit_id", sessOut, "sessions")
    let st := st.addEdge (sessOut, "subject_session_pairs",
      subjSessOut, "subject_session_pairs")
    st.addEdge (subjSessOut, "subject_session_pairs",
      report, "subject_session_pairs")
  | .per_subject =>
    let subjOut := p.name ++ "_subject_summary_outputs"
    let st := st.addNode subjOut
    let st := st.addEdge (sink, "subject_id", subjOut, "subjects")
    st.addEdge (subjOut, "subjects", report, "subjects")
  | .per_visit =>
    let visitOut := p.name ++ "_visit_summary_outputs"
    let st := st.addNode visitOut
    let st := st.addEdge (sink, "visit_id", visitOut, "sessions")
    st.addEdge (visitOut, "sessions", report, "visits")
  | .per_study =>
    st.addEdge (sink, "project_id", report, "project")

/-- Embeds the outer output-wiring loop of `_connect_to_repository`
(lines 242-297): for each frequency with declared outputs, create the
frequency's sink, wire the iterator ids into it (lines 250-255), wire each
output (possibly through a converter), and connect the sink to the report
node via `_connect_to_reports`. -/
def wireOutputsOfFreq (study : StudyModel) (p : Pipeline) (freq : Freq)
    (st : WFState) : Except PyErr Unit × WFState :=
  match p.outputs.filter (fun o => study.freq o.name = freq) with
  | [] => (.ok (), st)
  | outs =>
    let sink := p.name ++ "_" ++ freqName freq ++ "_sink"
    let sessionsNode := p.name ++ "_sessions"
    let st := st.addNode sink
    let st := if freq = .per_session || freq = .per_subject then
        st.addEdge (sessionsNode, "subject_id", sink, "subject_id")
      else st
    let st := if freq = .per_session || freq = .per_visit then
        st.addEdge (sessionsNode, "visit_id", sink, "visit_id")
      else st
    match wireOutputList study p freq outs st with
    | (.ok _, st') => (.ok (), connectToReports p freq st')
    | (.error e, st') => (.error e, st')

/-- The loop over the frequency groups of `pipeline._outputs`
(lines 242-297); the dict is modelled as the four frequencies visited in
declaration order. -/
def wireOutputs (study : StudyModel) (p : Pipeline) :
    List Freq → WFState → Except PyErr Unit × WFState
  | [], st => (.ok (), st)
  | f :: rest, st =>
    match wireOutputsOfFreq study p f st with
    | (.ok _, st') => wireOutputs study p rest st'
    | (.error e, st') => (.error e, st')

/-- The workflow mutations of lines 142-145: `add_nodes([pipeline._workflow])`
plus the subject and session iterator nodes of
`_subject_and_session_iterators` and their connecting edge (line 341). -/
def addIterNodes (nm : String) (st : WFState) : WFState :=
  (((st.addNode (nm ++ "_workflow")).addNode
    (nm ++ "_subjects")).addNode (nm ++ "_sessions")).addEdge
    (nm ++ "_subjects", "subject_id", nm ++ "_sessions", "subject_id")

/-- The workflow mutations of lines 170-180: when at least one prerequisite
ran, a merge node collects every prerequisite completion report and gates
the subject iterator through its `prereq_reports` input. -/
def addPrereqMerge (nm : String) (reports : List String) (st : WFState) :
    WFState :=
  if reports.isEmpty then st
  else
    ((List.enumFrom 1 reports).foldl
      (fun st2 ir => st2.addEdge (ir.2, "subject_session_pairs",
        nm ++ "_prereq_reports", "in" ++ toString ir.1))
      (st.addNode (nm ++ "_prereq_reports"))).addEdge
      (nm ++ "_prereq_reports", "out", nm ++ "_subjects", "prereq_reports")

/-- The workflow mutations of lines 181-200: the repository source node and
the subject/visit id connections from the session iterator into the
pipeline input node and the source. -/
def addSourceAndIds (nm : String) (st : WFState) : WFState :=
  (((((st.addNode (nm ++ "_source")).addEdge
    (nm ++ "_sessions", "subject_id", nm ++ "_inputnode", "subject_id")).addEdge
    (nm ++ "_sessions", "visit_id", nm ++ "_inputnode", "visit_id")).addEdge
    (nm ++ "_sessions", "subject_id", nm ++ "_source", "subject_id")).addEdge
    (nm ++ "_sessions", "visit_id", nm ++ "_source", "visit_id"))

mutual

/-- Embeds `BaseProcessor._connect_to_repository`
(src/arcana/processor/base.py lines 114-300).  Steps, in source order:

1. lookup `already_connected[pipeline.name]` (lines 119-129): on a hit an
   equal pipeline returns the cached report unchanged, a differing pipeline
   raises the ArcanaError name clash;
2. `pipeline.assert_connected()` (line 131);
3. `_to_process` (lines 134-135), with `reprocess` left at its default
   False; an empty session set raises ArcanaNoRunRequiredException before
   any workflow mutation (lines 136-139);
4. `add_nodes([pipeline._workflow])` (line 142) and the subject/session
   iterator nodes (lines 143-145, 302-342);
5. recursive connection of the prerequisites, restricted to the subject and
   visit ids of the sessions to process (lines 147-169), tolerating
   ArcanaNoRunRequiredException; the completion reports of prerequisites
   that ran feed a merge node gating the subject iterator (lines 170-180);
6. the repository source (lines 181-189, raising
   ArcanaMissingDataException when an acquired input is unbound), the
   iterator-to-inputnode and iterator-to-source id connections
   (lines 190-200), and the input wiring with converters (lines 201-236);
7. the report node (line 240) and the per-frequency output wiring
   (lines 241-297);
8. registration of `(pipeline, report)` under `pipeline.name` in
   `already_connected` (line 299) before returning the report. -/
def connect_to_repository (study : StudyModel) (tree : Tree) :
    Pipeline → Option (Finset String) → Option (Finset String) → WFState →
    Except PyErr String × WFState
  | .mk nm wd ins outs prs, sids, vids, st =>
    match lookupConnected st.connected nm with
    | some (prev, report) =>
      if prev = Pipeline.mk nm wd ins outs prs then (.ok report, st)
      else (.error (.arcanaError "name clash between non-matching pipelines"), st)
    | none =>
      if !wd then (.error (.arcanaError "pipeline not fully connected"), st)
      else
        match to_process study tree (.mk nm wd ins outs prs) sids vids false with
        | .error e => (.error e, st)
        | .ok sess =>
          if sess = ∅ then (.error .noRunRequired, st)
          else
            match connectPrereqs study tree prs
                (some (sess.image Prod.fst)) (some (sess.image Prod.snd))
                (addIterNodes nm st) with
            | (.error e, st2) => (.error e, st2)
            | (.ok reports, st2) =>
              if ins.any (fun i => study.unbound i.name) then
                (.error (.missingData
                  ("acquired fileset not supplied, which is required for pipeline "
                    ++ nm)), addPrereqMerge nm reports st2)
              else
                match wireInputs study (.mk nm wd ins outs prs) ins
                    (addSourceAndIds nm (addPrereqMerge nm reports st2)) with
                | (.error e, st3) => (.error e, st3)
                | (.ok _, st3) =>
                  match wireOutputs study (.mk nm wd ins outs prs)
                      [.per_session, .per_subject, .per_visit, .per_study]
                      (st3.addNode (nm ++ "_report")) with
                  | (.error e, st4) => (.error e, st4)
                  | (.ok _, st4) =>
                    (.ok (nm ++ "_report"),
                      { st4 with connected :=
                        (nm, Pipeline.mk nm wd ins outs prs,
                          nm ++ "_report") :: st4.connected })

/-- The prerequisite loop of `_connect_to_repository` (lines 153-169):
connect each prerequisite in turn with the narrowed subject and visit
scope, collecting the completion reports; ArcanaNoRunRequiredException from
a prerequisite is tolerated (the prerequisite is omitted from the report
list), any other exception propagates at once. -/
def connectPrereqs (study : StudyModel) (tree : Tree) :
    List Pipeline → Option (Finset String) → Option (Finset String) →
    WFState → Except PyErr (List String) × WFState
  | [], _, _, st => (.ok [], st)
  | q :: rest, sids, vids, st =>
    match connect_to_repository study tree q sids vids st with
    | (.ok r, st') =>
      match connectPrereqs study tree rest sids vids st' with
      | (.ok rs, st'') => (.ok (r :: rs), st'')
      | (.error e, st'') => (.error e, st'')
    | (.error .noRunRequired, st') => connectPrereqs study tree rest sids vids st'
    | (.error e, st') => (.error e, st')

end

/-! No-run-required behaviour of the connector. -/

/-- Every output of the list exists at every node of its declared
frequency: the study-level item for per_study outputs, the item of every
tree subject for per_subject outputs, of every tree visit for per_visit
outputs, and of every tree session for per_session outputs. -/
def allOutputsExist (study : StudyModel) (tree : Tree)
    (outs : List OutputSpec) : Prop :=
  ∀ o ∈ outs,
    (study.freq o.name = .per_study → study.studyExists o.name = true) ∧
    (study.freq o.name = .per_subject →
      ∀ s ∈ tree.subjectIds, study.subjectExists o.name s = true) ∧
    (study.freq o.name = .per_visit →
      ∀ v ∈ tree.visitIds, study.visitExists o.name v = true) ∧
    (study.freq o.name = .per_session →
      ∀ ss ∈ tree.sessions, study.sessionExists o.name ss = true)

instance (study : StudyModel) (tree : Tree) (outs : List OutputSpec) :
    Decidable (allOutputsExist study tree outs) := by
  unfold allOutputsExist
  infer_instance

/-- Helper: when every output item exists, the output loop of `_to_process`
adds nothing to the accumulator. -/
theorem toProcessLoop_all_exist (study : StudyModel) (tree : Tree)
    (sids vids : Option (Finset String)) (outs : List OutputSpec)
    (acc : Finset (String × String))
    (hex : allOutputsExist study tree outs) :
    toProcessLoop study tree sids vids outs acc = .ok acc := by
  induction outs generalizing acc with
  | nil => rw [toProcessLoop]
  | cons o rest ih =>
    have hrest : allOutputsExist study tree rest :=
      fun o' ho' => hex o' (List.mem_cons_of_mem _ ho')
    have ho := hex o (List.mem_cons_self _ _)
    rw [toProcessLoop]
    rcases hf : study.freq o.name with _ | _ | _ | _
    · rw [ho.1 hf]
      simp only [Bool.not_true, Bool.false_eq_true, if_false]
      exact ih _ hrest
    · have hfil : tree.subjectIds.filter
          (fun s => !(study.subjectExists o.name s) && passes sids s) = [] := by
        rw [List.filter_eq_nil_iff]
        intro s hs
        rw [ho.2.1 hf s hs]
        simp
      simp only [hfil, List.flatMap_nil, List.toFinset_nil, Finset.union_empty]
      exact ih _ hrest
    · have hfil : tree.visitIds.filter
          (fun v => !(study.visitExists o.name v) && passes vids v) = [] := by
        rw [List.filter_eq_nil_iff]
        intro v hv
        rw [ho.2.2.1 hf v hv]
        simp
      simp only [hfil, List.flatMap_nil, List.toFinset_nil, Finset.union_empty]
      exact ih _ hrest
    · have hfil : tree.sessions.filter
          (fun ss => !(study.sessionExists o.name ss) &&
            passes sids ss.1 && passes vids ss.2) = [] := by
        rw [List.filter_eq_nil_iff]
        intro ss hss
        rw [ho.2.2.2 hf ss hss]
        simp
      simp only [hfil, List.toFinset_nil, Finset.union_empty]
      exact ih _ hrest

/-- Helper: when every output item exists (and the irregular-scope check
does not fire), `_to_process` returns the empty session set. -/
theorem to_process_empty_of_all_exist (study : StudyModel) (tree : Tree)
    (p : Pipeline) (sids vids : Option (Finset String))
    (hcomplete : tree.incompleteSubjects = [])
    (hex : allOutputsExist study tree p.outputs) :
    to_process study tree p sids vids false = .ok ∅ := by
  rw [to_process]
  simp only [hcomplete, List.isEmpty_nil, Bool.not_true, Bool.and_false,
    Bool.false_eq_true, if_false]
  exact toProcessLoop_all_exist study tree sids vids p.outputs ∅ hex

/-- Helper: a pipeline not yet in `already_connected` whose session set is
empty makes `_connect_to_repository` raise ArcanaNoRunRequiredException
with the workflow state completely untouched: the raise at line 137 comes
before any node or edge is added and before any registration. -/
theorem connect_noRun_of_empty (study : StudyModel) (tree : Tree)
    (p : Pipeline) (sids vids : Option (Finset String)) (st : WFState)
    (hmiss : lookupConnected st.connected p.name = none)
    (hwired : p.wired = true)
    (hempty : to_process study tree p sids vids false = .ok ∅) :
    connect_to_repository study tree p sids vids st =
      (.error .noRunRequired, st) := by
  obtain ⟨nm, wd, ins, outs, prs⟩ := p
  rw [Pipeline.name] at hmiss
  rw [Pipeline.wired] at hwired
  subst hwired
  rw [connect_to_repository, hmiss]
  simp [hempty]

/-- A study whose items all exist everywhere. -/
def studyAllEx : StudyModel :=
  { study2x2 with
    studyExists := fun _ => true
    subjectExists := fun _ _ => true
    visitExists := fun _ _ => true
    sessionExists := fun _ _ => true }

/-- The empty workflow state at the start of a planning pass. -/
def emptyState : WFState := ⟨[], [], []⟩

/-- C4: for a wired, not-yet-connected pipeline whose every declared output
already exists at every node in scope (over a tree with no incomplete
subjects), `_to_process` returns the empty session set and
`_connect_to_repository` raises ArcanaNoRunRequiredException with the
workflow state it was given returned completely unchanged: the raise at
line 137 precedes every node addition and every connection. -/
theorem connect_no_run_required (study : StudyModel) (tree : Tree)
    (p : Pipeline) (sids vids : Option (Finset String)) (st : WFState)
    (hmiss : lookupConnected st.connected p.name = none)
    (hwired : p.wired = true)
    (hcomplete : tree.incompleteSubjects = [])
    (hex : allOutputsExist study tree p.outputs) :
    to_process study tree p sids vids false = .ok ∅ ∧
    connect_to_repository study tree p sids vids st =
      (.error .noRunRequired, st) := by
  have h := to_process_empty_of_all_exist study tree p sids vids hcomplete hex
  exact ⟨h, connect_noRun_of_empty study tree p sids vids st hmiss hwired h⟩

/-- Witness for C4: pipeline A over the complete 2x2 tree with every item
existing: the session set is empty and connecting raises
ArcanaNoRunRequiredException leaving the empty workflow state unchanged. -/
theorem connect_no_run_required_witness :
    lookupConnected emptyState.connected pipeA.name = none ∧
    pipeA.wired = true ∧
    tree2x2.incompleteSubjects = [] ∧
    allOutputsExist studyAllEx tree2x2 pipeA.outputs ∧
    (to_process studyAllEx tree2x2 pipeA none none false = .ok ∅ ∧
      connect_to_repository studyAllEx tree2x2 pipeA none none emptyState =
        (.error .noRunRequired, emptyState)) :=
  ⟨by decide, by decide, by decide, by decide,
    connect_no_run_required studyAllEx tree2x2 pipeA none none emptyState
      (by decide) (by decide) (by decide) (by decide)⟩

/-- C9 counterexample: connecting pipeline A, whose outputs all already
exist, signals NoRunRequired — and afterwards `already_connected` holds no
entry at all: the registration the claim asserts does not happen, and no
completion report of A is wired. -/
theorem no_run_required_nothing_registered :
    (connect_to_repository studyAllEx tree2x2 pipeA none none emptyState).1 =
      .error .noRunRequired ∧
    (connect_to_repository studyAllEx tree2x2 pipeA none none
      emptyState).2.connected = [] := by
  decide

/-- C9 amended: when a pipeline's session set is empty, NoRunRequired is
signaled with the workflow state unchanged — in particular no entry is
added to `already_connected` and no completion report is wired — and a
dependent pipeline connecting it as a prerequisite recovers by catching the
exception and omitting that prerequisite from its ordering join, continuing
with the remaining prerequisites on the same state. -/
theorem no_run_required_skipped_not_registered (study : StudyModel)
    (tree : Tree) (p : Pipeline) (sids vids : Option (Finset String))
    (st : WFState) (rest : List Pipeline)
    (hmiss : lookupConnected st.connected p.name = none)
    (hwired : p.wired = true)
    (hempty : to_process study tree p sids vids false = .ok ∅) :
    connect_to_repository study tree p sids vids st =
      (.error .noRunRequired, st) ∧
    connectPrereqs study tree (p :: rest) sids vids st =
      connectPrereqs study tree rest sids vids st := by
  have h := connect_noRun_of_empty study tree p sids vids st hmiss hwired hempty
  refine ⟨h, ?_⟩
  rw [connectPrereqs, h]

/-- Witness for the amended C9 at pipeline A over the all-existing study. -/
theorem no_run_required_skipped_not_registered_witness :
    lookupConnected emptyState.connected pipeA.name = none ∧
    pipeA.wired = true ∧
    to_process studyAllEx tree2x2 pipeA none none false = .ok ∅ ∧
    (connect_to_repository studyAllEx tree2x2 pipeA none none emptyState =
        (.error .noRunRequired, emptyState) ∧
      connectPrereqs studyAllEx tree2x2 [pipeA] none none emptyState =
        connectPrereqs studyAllEx tree2x2 [] none none emptyState) :=
  ⟨by decide, by decide, by decide,
    no_run_required_skipped_not_registered studyAllEx tree2x2 pipeA none none
      emptyState [] (by decide) (by decide) (by decide)⟩

/-! Deduplication and name-clash detection. -/

/-- Helper: a successful connection always leaves `(pipeline, report)`
registered under `pipeline.name` in `already_connected` — either it was
already registered (cache hit of lines 120-122) or the registration of
line 299 just added it. -/
theorem connect_ok_registers (study : StudyModel) (tree : Tree)
    (p : Pipeline) (sids vids : Option (Finset String)) (st : WFState)
    (r : String) (st' : WFState)
    (h : connect_to_repository study tree p sids vids st = (.ok r, st')) :
    lookupConnected st'.connected p.name = some (p, r) := by
  obtain ⟨nm, wd, ins, outs, prs⟩ := p
  rw [Pipeline.name]
  rw [connect_to_repository] at h
  split at h
  next prev report heq =>
    split at h
    next hpr =>
      simp only [Prod.mk.injEq, Except.ok.injEq] at h
      obtain ⟨h1, h2⟩ := h
      rw [← h2, heq, hpr, h1]
    next hpr =>
      simp at h
  next heq =>
    split at h
    · simp at h
    · split at h
      · simp at h
      next sess hsess =>
        split at h
        · simp at h
        · split at h
          · simp at h
          next reports st2 hpr =>
            split at h
            · simp at h
            · split at h
              · simp at h
              next a st3 hwi =>
                split at h
                · simp at h
                next b st4 hwo =>
                  simp only [Prod.mk.injEq, Except.ok.injEq] at h
                  obtain ⟨h1, h2⟩ := h
                  rw [← h2]
                  simp [lookupConnected, h1]

/-- Helper: with a hit in `already_connected`, `_connect_to_repository`
reduces to the equality test of line 121: an equal pipeline returns the
cached report, a differing one raises the name clash. -/
theorem connect_cache_hit (study : StudyModel) (tree : Tree) (nm : String)
    (wd : Bool) (ins : List InputSpec) (outs : List OutputSpec)
    (prs : List Pipeline) (sids vids : Option (Finset String)) (st : WFState)
    (prev : Pipeline) (r : String)
    (hl : lookupConnected st.connected nm = some (prev, r)) :
    connect_to_repository study tree (.mk nm wd ins outs prs) sids vids st =
      if prev = .mk nm wd ins outs prs then (.ok r, st)
      else (.error (.arcanaError "name clash between non-matching pipelines"),
        st) := by
  rw [connect_to_repository, hl]

/-- C2: after a successful connection within one planning pass, `(pipeline,
report)` is registered under `pipeline.name` in `already_connected`;
calling `_connect_to_repository` again with a pipeline comparing equal to
the connected one returns the identical report node with the state
unchanged (no steps are added again); calling it with a same-named pipeline
that does not compare equal raises the ArcanaError name clash, also leaving
the state unchanged. -/
theorem connect_idempotent_and_name_clash (study : StudyModel) (tree : Tree)
    (p : Pipeline) (sids vids : Option (Finset String)) (st : WFState)
    (r : String) (st' : WFState)
    (h : connect_to_repository study tree p sids vids st = (.ok r, st')) :
    lookupConnected st'.connected p.name = some (p, r) ∧
    connect_to_repository study tree p sids vids st' = (.ok r, st') ∧
    (∀ q sids2 vids2, Pipeline.name q = p.name → q ≠ p →
      connect_to_repository study tree q sids2 vids2 st' =
        (.error (.arcanaError "name clash between non-matching pipelines"),
          st')) := by
  obtain ⟨nm, wd, ins, outs, prs⟩ := p
  have hreg := connect_ok_registers study tree _ sids vids st r st' h
  rw [Pipeline.name] at hreg
  refine ⟨hreg, ?_, ?_⟩
  · rw [connect_cache_hit study tree nm wd ins outs prs sids vids st' _ r hreg]
    rw [if_pos rfl]
  · intro q sids2 vids2 hname hne
    obtain ⟨qn, qw, qi, qo, qp⟩ := q
    simp only [Pipeline.name] at hname
    subst hname
    rw [connect_cache_hit study tree _ qw qi qo qp sids2 vids2 st' _ r hreg]
    rw [if_neg (fun hc => hne hc.symm)]

/-- The workflow state after successfully connecting pipeline A. -/
def stateAfterA : WFState :=
  (connect_to_repository study2x2 tree2x2 pipeA none none emptyState).2

/-- Witness for C2: connecting pipeline A over the 2x2 tree succeeds and
registers it; re-connecting returns the identical report with the state
unchanged, and any same-named unequal pipeline raises the name clash. -/
theorem connect_idempotent_and_name_clash_witness :
    connect_to_repository study2x2 tree2x2 pipeA none none emptyState =
      (.ok "A_report", stateAfterA) ∧
    (lookupConnected stateAfterA.connected pipeA.name =
        some (pipeA, "A_report") ∧
      connect_to_repository study2x2 tree2x2 pipeA none none stateAfterA =
        (.ok "A_report", stateAfterA) ∧
      (∀ q sids2 vids2, Pipeline.name q = pipeA.name → q ≠ pipeA →
        connect_to_repository study2x2 tree2x2 q sids2 vids2 stateAfterA =
          (.error (.arcanaError "name clash between non-matching pipelines"),
            stateAfterA))) :=
  ⟨by decide,
    connect_idempotent_and_name_clash study2x2 tree2x2 pipeA none none
      emptyState "A_report" stateAfterA (by decide)⟩

/-! Converter insertion on pipeline inputs. -/

/-- C8: wiring one pipeline fileset input (the loop body of lines 201-236
of `_connect_to_repository`): when the bound study format equals the
format declared on the input spec, the repository source is wired straight
to the pipeline input and no conversion node is inserted; when the formats
differ and no converter from the stored to the required format is
registered, ArcanaNoConverterError is raised carrying the required format,
the stored format, the pipeline name and the study name; when a converter
is registered, exactly one conversion node is inserted, wired between the
source and the pipeline input on that edge. -/
theorem input_converter_insertion (study : StudyModel) (p : Pipeline)
    (i : InputSpec) (st : WFState)
    (hfs : study.isField i.name = false) :
    (study.boundFormat i.name = i.format →
      wireOneInput study p i st = (.ok (),
        st.addEdge (p.name ++ "_source", i.name ++ pathSuffix,
          p.name ++ "_inputnode", i.name)) ∧
      (wireOneInput study p i st).2.nodes = st.nodes) ∧
    (study.boundFormat i.name ≠ i.format →
      study.converterFrom i.format (study.boundFormat i.name) = none →
      wireOneInput study p i st = (.error (.noConverter i.format
        (study.boundFormat i.name) p.name study.name), st)) ∧
    (∀ c, study.boundFormat i.name ≠ i.format →
      study.converterFrom i.format (study.boundFormat i.name) = some c →
      (wireOneInput study p i st).1 = .ok () ∧
      (wireOneInput study p i st).2.nodes =
        st.nodes ++ [p.name ++ "_" ++ i.name ++ "_input_conversion"] ∧
      (wireOneInput study p i st).2.edges = st.edges ++
        [(p.name ++ "_source", i.name ++ pathSuffix,
          p.name ++ "_" ++ i.name ++ "_input_conversion", "conv_in"),
         (p.name ++ "_" ++ i.name ++ "_input_conversion", "conv_out",
          p.name ++ "_inputnode", i.name)]) := by
  refine ⟨?_, ?_, ?_⟩
  · intro heq
    rw [wireOneInput]
    simp [hfs, heq, WFState.addEdge]
  · intro hne hconv
    rw [wireOneInput]
    simp [hfs, hne, hconv]
  · intro c hne hconv
    rw [wireOneInput]
    simp [hfs, hne, hconv, WFState.addNode, WFState.addEdge]

/-- A study storing every fileset in format dicom and holding one
registered converter producing nifti from dicom. -/
def studyConv : StudyModel :=
  { study2x2 with
    boundFormat := fun _ => "dicom"
    converters := [("nifti", "dicom")] }

/-- An input spec requiring format nifti. -/
def inputNifti : InputSpec := ⟨"in1", "nifti"⟩

/-- Witness for C8: for input in1 required as nifti but stored as dicom
with the (nifti, dicom) converter registered, wiring inserts exactly the
conversion node A_in1_input_conversion. -/
theorem input_converter_insertion_witness :
    studyConv.isField inputNifti.name = false ∧
    studyConv.boundFormat inputNifti.name ≠ inputNifti.format ∧
    studyConv.converterFrom inputNifti.format
      (studyConv.boundFormat inputNifti.name) = some ("nifti", "dicom") ∧
    (wireOneInput studyConv pipeA inputNifti emptyState).2.nodes =
      ["A_in1_input_conversion"] := by
  refine ⟨by decide, by decide, by decide, ?_⟩
  have h := (input_converter_insertion studyConv pipeA inputNifti emptyState
    (by decide)).2.2 ("nifti", "dicom") (by decide) (by decide)
  rw [h.2.1]
  decide

end Arcana
